import Mathlib

/-!
Shallow embedding of the DataDome fraud SDK (Go package `fraudsdkgo`) for
checking its natural-language specification.

Conventions of the embedding:
* A Go `string` is modelled as `GoString := List Char`, one list element per
  byte of the Go string; Go slicing (`s[:n]`, `s[n:]`) becomes `List.take` /
  `List.drop`, and Go `len` becomes `List.length`.
* `strings.EqualFold` is modelled by ASCII case folding (`eqFold`): on the
  ASCII range Go's Unicode simple folding is exactly ASCII case folding, and
  every comparison made by the SDK is against the ASCII literals "http" and
  "https".
* An incoming `*http.Request` is modelled by the projections the SDK reads
  from it: header lookup (keys stored in the lowercase form the code uses for
  `Header.Get`), host, method, remote address, URL path/query, cookies, and
  whether `r.TLS != nil`.
* Fallible Go functions returning `(T, error)` become `Option T`.
* The network interaction of `performRequest` (an external effect) is
  abstracted by a `TransportResult` input; a response body is characterized
  by its JSON-decoding outcomes for the two target payload types.
-/

/-- A Go string: the list of its bytes (each byte as a `Char`). -/
abbrev GoString := List Char

/-- Lowercase an ASCII letter, leave everything else unchanged. -/
def asciiLower (c : Char) : Char :=
  if 'A' ≤ c ∧ c ≤ 'Z' then Char.ofNat (c.toNat + 32) else c

/-- Model of `strings.EqualFold` restricted to the ASCII range: equality up to
ASCII case folding. -/
def eqFold (s t : GoString) : Bool :=
  s.map asciiLower = t.map asciiLower

/-- Index of the last occurrence of `c` in `s` (Go's `last(s, c)`), `none` when
`c` does not occur. -/
def lastIndexOf (s : GoString) (c : Char) : Option Nat :=
  match s with
  | [] => none
  | a :: rest =>
    match lastIndexOf rest c with
    | some i => some (i + 1)
    | none => if a = c then some 0 else none

/-- Index of the first occurrence of `c` in `s` (Go's `byteIndex`), `none`
when `c` does not occur. -/
def indexOfChar (s : GoString) (c : Char) : Option Nat :=
  match s with
  | [] => none
  | a :: rest =>
    if a = c then some 0 else (indexOfChar rest c).map (· + 1)

/-- Whether `c` occurs in `s` (Go's `byteIndex(s, c) >= 0`). -/
def containsChar (s : GoString) (c : Char) : Bool :=
  (indexOfChar s c).isSome

/-- Model of Go `net.SplitHostPort`.  The Go function returns
`(host, port, err)`; every error return is modelled as `none` (its callers in
the SDK only test `err != nil`).  Structure follows the Go source: find the
last colon; a leading `[` starts a bracketed (IPv6) host that must be closed
by `]` immediately followed by the final colon; an unbracketed host must not
contain a colon; stray `[` or `]` characters are rejected. -/
def splitHostPort (hostPort : GoString) : Option (GoString × GoString) :=
  match lastIndexOf hostPort ':' with
  | none => none
  | some i =>
    match hostPort with
    | '[' :: _ =>
      match indexOfChar hostPort ']' with
      | none => none
      | some e =>
        if e + 1 = hostPort.length then none
        else if e + 1 ≠ i then none
        else if containsChar (hostPort.drop 1) '[' then none
        else if containsChar (hostPort.drop (e + 1)) ']' then none
        else some ((hostPort.drop 1).take (e - 1), hostPort.drop (i + 1))
    | _ =>
      let host := hostPort.take i
      if containsChar host ':' then none
      else if containsChar hostPort '[' then none
      else if containsChar hostPort ']' then none
      else some (host, hostPort.drop (i + 1))

/-- Decimal value of an ASCII digit. -/
def digitVal (c : Char) : Option Nat :=
  if '0' ≤ c ∧ c ≤ '9' then some (c.toNat - '0'.toNat) else none

/-- Parse a nonempty all-digit string as a natural number. -/
def parseDigits : GoString → Option Nat
  | [] => none
  | s => go s 0
where
  go : GoString → Nat → Option Nat
  | [], acc => some acc
  | c :: rest, acc =>
    match digitVal c with
    | some d => go rest (acc * 10 + d)
    | none => none

/-- Largest value of a 64-bit signed integer, the range bound enforced by
`strconv.Atoi` on a 64-bit platform. -/
def maxInt64 : Nat := 9223372036854775807

/-- Model of Go `strconv.Atoi`: an optional sign followed by at least one
digit; values outside the 64-bit signed range produce an error (`none`). -/
def atoi (s : GoString) : Option Int :=
  match s with
  | '+' :: rest => (parseDigits rest).bind fun n =>
      if n ≤ maxInt64 then some (n : Int) else none
  | '-' :: rest => (parseDigits rest).bind fun n =>
      if n ≤ maxInt64 + 1 then some (-(n : Int)) else none
  | _ => (parseDigits s).bind fun n =>
      if n ≤ maxInt64 then some (n : Int) else none

/-- Model of an inbound `*http.Request`, by the projections the SDK reads.
Header and cookie names are stored in the (lowercase) form the code passes to
`Header.Get` / `Cookie`. -/
structure HttpRequest where
  headers : List (GoString × GoString)
  cookies : List (GoString × GoString)
  Host : GoString
  Method : GoString
  RemoteAddr : GoString
  URLPath : GoString
  URLRawQuery : GoString
  tls : Bool
  deriving Repr, DecidableEq

/-- Model of `r.Header.Get(key)`: first value stored under `key`, or the empty
string. -/
def headerGet (r : HttpRequest) (key : GoString) : GoString :=
  match r.headers.find? (fun p => p.1 = key) with
  | some p => p.2
  | none => []

/-- Model of `r.Cookie(name)`: the first cookie with that name. -/
def cookieGet (r : HttpRequest) (name : GoString) : Option GoString :=
  (r.cookies.find? (fun p => p.1 = name)).map Prod.snd

/-- Go type `ApiFields` is a string type (`type ApiFields string`). -/
abbrev ApiFields := GoString

namespace ApiFields

/-- Constant `Accept` of the Go `ApiFields` enumeration. -/
def Accept : ApiFields := "Accept".data

/-- Constant `AcceptCharset` of the Go `ApiFields` enumeration. -/
def AcceptCharset : ApiFields := "AcceptCharset".data

/-- Constant `AcceptEncoding` of the Go `ApiFields` enumeration. -/
def AcceptEncoding : ApiFields := "AcceptEncoding".data

/-- Constant `AcceptLanguage` of the Go `ApiFields` enumeration. -/
def AcceptLanguage : ApiFields := "AcceptLanguage".data

/-- Constant `ClientID` of the Go `ApiFields` enumeration. -/
def ClientID : ApiFields := "ClientID".data

/-- Constant `Connection` of the Go `ApiFields` enumeration. -/
def Connection : ApiFields := "Connection".data

/-- Constant `ContentType` of the Go `ApiFields` enumeration. -/
def ContentType : ApiFields := "ContentType".data

/-- Constant `From` of the Go `ApiFields` enumeration. -/
def From : ApiFields := "From".data

/-- Constant `Host` of the Go `ApiFields` enumeration. -/
def Host : ApiFields := "Host".data

/-- Constant `Origin` of the Go `ApiFields` enumeration. -/
def Origin : ApiFields := "Origin".data

/-- Constant `Referer` of the Go `ApiFields` enumeration. -/
def Referer : ApiFields := "Referer".data

/-- Constant `Request` of the Go `ApiFields` enumeration. -/
def Request : ApiFields := "Request".data

/-- Constant `SecCHDeviceMemory` of the Go `ApiFields` enumeration. -/
def SecCHDeviceMemory : ApiFields := "SecCHDeviceMemory".data

/-- Constant `SecCHUA` of the Go `ApiFields` enumeration. -/
def SecCHUA : ApiFields := "SecCHUA".data

/-- Constant `SecCHUAArch` of the Go `ApiFields` enumeration. -/
def SecCHUAArch : ApiFields := "SecCHUAArch".data

/-- Constant `SecCHUAFullVersionList` of the Go `ApiFields` enumeration. -/
def SecCHUAFullVersionList : ApiFields := "SecCHUAFullVersionList".data

/-- Constant `SecCHUAMobile` of the Go `ApiFields` enumeration. -/
def SecCHUAMobile : ApiFields := "SecCHUAMobile".data

/-- Constant `SecCHUAModel` of the Go `ApiFields` enumeration. -/
def SecCHUAModel : ApiFields := "SecCHUAModel".data

/-- Constant `SecCHUAPlatform` of the Go `ApiFields` enumeration. -/
def SecCHUAPlatform : ApiFields := "SecCHUAPlatform".data

/-- Constant `ServerHostname` of the Go `ApiFields` enumeration. -/
def ServerHostname : ApiFields := "ServerHostname".data

/-- Constant `UserAgent` of the Go `ApiFields` enumeration. -/
def UserAgent : ApiFields := "UserAgent".data

/-- Constant `XForwardedForIP` of the Go `ApiFields` enumeration. -/
def XForwardedForIP : ApiFields := "XForwardedForIP".data

/-- Constant `XRealIP` of the Go `ApiFields` enumeration. -/
def XRealIP : ApiFields := "XRealIP".data

end ApiFields

/-- Model of `getTruncationSize`: the maximal size allowed for a given
`ApiFields` value, translated switch case by switch case from the source. -/
def getTruncationSize (key : ApiFields) : Int :=
  if key = ApiFields.SecCHDeviceMemory ∨ key = ApiFields.SecCHUAMobile then 8
  else if key = ApiFields.SecCHUAArch then 16
  else if key = ApiFields.SecCHUAPlatform then 32
  else if key = ApiFields.ContentType then 64
  else if key = ApiFields.ClientID ∨ key = ApiFields.AcceptCharset ∨
      key = ApiFields.AcceptEncoding ∨ key = ApiFields.Connection ∨
      key = ApiFields.From ∨ key = ApiFields.SecCHUA ∨
      key = ApiFields.SecCHUAModel ∨ key = ApiFields.XRealIP then 128
  else if key = ApiFields.AcceptLanguage ∨ key = ApiFields.SecCHUAFullVersionList then 256
  else if key = ApiFields.Origin ∨ key = ApiFields.ServerHostname ∨
      key = ApiFields.Accept ∨ key = ApiFields.Host then 512
  else if key = ApiFields.XForwardedForIP then -512
  else if key = ApiFields.UserAgent then 768
  else if key = ApiFields.Referer then 1024
  else if key = ApiFields.Request then 2048
  else 0

/-- Model of `truncateValue`: truncated value of the given key; a negative
limit keeps the trailing bytes (`value[len(value)-limit:]`), a positive limit
keeps the leading bytes (`value[:limit]`). -/
def truncateValue (key : ApiFields) (value : GoString) : GoString :=
  if value = [] then []
  else
    let limit := getTruncationSize key
    if limit < 0 ∧ (value.length : Int) > -1 * limit then
      value.drop (value.length - (-1 * limit).toNat)
    else if limit > 0 ∧ (value.length : Int) > limit then
      value.take limit.toNat
    else value

/-- Model of `truncatePointerValue`: pointer to the truncated value, `nil`
(`none`) for the empty string. -/
def truncatePointerValue (key : ApiFields) (value : GoString) : Option GoString :=
  if value ≠ [] then some (truncateValue key value) else none

/-- Model of `getClientId`: value of the `x-datadome-clientid` header if
nonempty, else the `datadome` cookie value, else the empty string. -/
def getClientId (r : HttpRequest) : GoString :=
  let clientIDHeaders := headerGet r ("x-datadome-clientid".data)
  if clientIDHeaders.length > 0 then clientIDHeaders
  else
    match cookieGet r ("datadome".data) with
    | some v => v
    | none => []

/-- Model of `getIP`: host part of `net.SplitHostPort(r.RemoteAddr)`; the Go
error return is modelled as `none`. -/
def getIP (r : HttpRequest) : Option GoString :=
  (splitHostPort r.RemoteAddr).map Prod.fst

/-- Model of `getProtocol`: the `x-forwarded-proto` header value when it
case-insensitively equals "http" or "https", else "https" when `r.TLS` is
set, else "http". -/
def getProtocol (r : HttpRequest) : GoString :=
  let xForwardedProto := headerGet r ("x-forwarded-proto".data)
  if eqFold xForwardedProto ("http".data) || eqFold xForwardedProto ("https".data) then
    xForwardedProto
  else if r.tls then "https".data
  else "http".data

/-- Model of `getURL`: URL path, with "?" and the raw query appended when a
query string exists. -/
def getURL (r : HttpRequest) : GoString :=
  if r.URLRawQuery ≠ [] then r.URLPath ++ '?' :: r.URLRawQuery
  else r.URLPath

/-- Model of `getPort`: the port of the Host header parsed as an integer, `-1`
when the host is empty, has no port, or the port does not parse. -/
def getPort (r : HttpRequest) : Int :=
  if r.Host = [] then -1
  else
    match splitHostPort r.Host with
    | none => -1
    | some (_, stringPort) =>
      match atoi stringPort with
      | none => -1
      | some port => port

/-- Model of the generic `useMetadata`: the override when present, the derived
value otherwise. -/
def useMetadata {α : Type} (val1 : α) (val2 : Option α) : α :=
  match val2 with
  | some v => v
  | none => val1

/-- Go type `ResponseStatus` is a string type; JSON decoding can put any
string into it, so it is modelled as `GoString`. -/
abbrev ResponseStatus := GoString

/-- Constant `OK` of `ResponseStatus`. -/
def RespOK : ResponseStatus := "ok".data

/-- Constant `Failure` of `ResponseStatus`. -/
def RespFailure : ResponseStatus := "failure".data

/-- Constant `Timeout` of `ResponseStatus`. -/
def RespTimeout : ResponseStatus := "timeout".data

/-- Go type `ResponseAction` is a string type, modelled as `GoString`. -/
abbrev ResponseAction := GoString

/-- Constant `Allow` of `ResponseAction`. -/
def Allow : ResponseAction := "allow".data

/-- Constant `Deny` of `ResponseAction`. -/
def Deny : ResponseAction := "deny".data

/-- Model of the Go `Header` payload structure (the request fingerprint).
Field names follow the Go source. -/
structure Header where
  Accept : GoString
  AcceptCharset : GoString
  AcceptEncoding : GoString
  AcceptLanguage : GoString
  Addr : GoString
  ClientID : GoString
  Connection : GoString
  ContentType : GoString
  From : GoString
  Host : GoString
  Method : GoString
  Referer : GoString
  Request : GoString
  Origin : GoString
  Port : Int
  Protocol : GoString
  SecCHUA : Option GoString
  SecCHUAMobile : Option GoString
  SecCHUAPlatform : Option GoString
  SecCHUAArch : Option GoString
  SecCHUAFullVersionList : Option GoString
  SecCHUAModel : Option GoString
  SecCHDeviceMemory : Option GoString
  ServerHostname : GoString
  UserAgent : GoString
  XForwardedForIP : GoString
  XRealIP : GoString
  deriving Repr, DecidableEq

/-- Model of the Go `RequestMetadata` structure: one optional override slot
per `Header` field (Go nil pointers become `none`). -/
structure RequestMetadata where
  Accept : Option GoString := none
  AcceptCharset : Option GoString := none
  AcceptEncoding : Option GoString := none
  AcceptLanguage : Option GoString := none
  Addr : Option GoString := none
  ClientID : Option GoString := none
  Connection : Option GoString := none
  ContentType : Option GoString := none
  From : Option GoString := none
  Host : Option GoString := none
  Method : Option GoString := none
  Referer : Option GoString := none
  Request : Option GoString := none
  Origin : Option GoString := none
  Port : Option Int := none
  Protocol : Option GoString := none
  SecCHUA : Option GoString := none
  SecCHUAMobile : Option GoString := none
  SecCHUAPlatform : Option GoString := none
  SecCHUAArch : Option GoString := none
  SecCHUAFullVersionList : Option GoString := none
  SecCHUAModel : Option GoString := none
  SecCHDeviceMemory : Option GoString := none
  ServerHostname : Option GoString := none
  UserAgent : Option GoString := none
  XForwardedForIP : Option GoString := none
  XRealIP : Option GoString := none
  deriving Repr, DecidableEq

/-- Record literal of `buildHeader` (the `&Header{...}` expression from the
source), factored out so that the address resolution in front of it stays a
separate step; `ip` is the already-resolved address, `proto` the
already-resolved protocol and `port` the already-resolved port. -/
def buildHeaderFields (r : HttpRequest) (rm : RequestMetadata) (ip : GoString)
    (proto : GoString) (port : Int) : Header :=
  { Accept := truncateValue ApiFields.Accept
      (useMetadata (headerGet r ("accept".data)) rm.Accept)
    AcceptCharset := truncateValue ApiFields.AcceptCharset
      (useMetadata (headerGet r ("accept-charset".data)) rm.AcceptCharset)
    AcceptEncoding := truncateValue ApiFields.AcceptEncoding
      (useMetadata (headerGet r ("accept-encoding".data)) rm.AcceptEncoding)
    AcceptLanguage := truncateValue ApiFields.AcceptLanguage
      (useMetadata (headerGet r ("accept-language".data)) rm.AcceptLanguage)
    Addr := ip
    ClientID := truncateValue ApiFields.ClientID
      (useMetadata (getClientId r) rm.ClientID)
    Connection := truncateValue ApiFields.Connection
      (useMetadata (headerGet r ("connection".data)) rm.Connection)
    ContentType := truncateValue ApiFields.ContentType
      (useMetadata (headerGet r ("content-type".data)) rm.ContentType)
    From := truncateValue ApiFields.From
      (useMetadata (headerGet r ("from".data)) rm.From)
    Host := truncateValue ApiFields.Host (useMetadata r.Host rm.Host)
    Method := r.Method
    Referer := truncateValue ApiFields.Referer
      (useMetadata (headerGet r ("referer".data)) rm.Referer)
    Request := truncateValue ApiFields.Request (useMetadata (getURL r) rm.Request)
    Origin := truncateValue ApiFields.Origin
      (useMetadata (headerGet r ("origin".data)) rm.Origin)
    Port := port
    Protocol := proto
    SecCHUA := truncatePointerValue ApiFields.SecCHUA
      (useMetadata (headerGet r ("sec-ch-ua".data)) rm.SecCHUA)
    SecCHUAMobile := truncatePointerValue ApiFields.SecCHUAMobile
      (useMetadata (headerGet r ("sec-ch-ua-mobile".data)) rm.SecCHUAMobile)
    SecCHUAPlatform := truncatePointerValue ApiFields.SecCHUAPlatform
      (useMetadata (headerGet r ("sec-ch-ua-platform".data)) rm.SecCHUAPlatform)
    SecCHUAArch := truncatePointerValue ApiFields.SecCHUAArch
      (useMetadata (headerGet r ("sec-ch-ua-arch".data)) rm.SecCHUAArch)
    SecCHUAFullVersionList := truncatePointerValue ApiFields.SecCHUAFullVersionList
      (useMetadata (headerGet r ("sec-ch-ua-full-version-list".data)) rm.SecCHUAFullVersionList)
    SecCHUAModel := truncatePointerValue ApiFields.SecCHUAModel
      (useMetadata (headerGet r ("sec-ch-ua-model".data)) rm.SecCHUAModel)
    SecCHDeviceMemory := truncatePointerValue ApiFields.SecCHDeviceMemory
      (useMetadata (headerGet r ("sec-ch-device-memory".data)) rm.SecCHDeviceMemory)
    ServerHostname := truncateValue ApiFields.ServerHostname
      (useMetadata r.Host rm.ServerHostname)
    UserAgent := truncateValue ApiFields.UserAgent
      (useMetadata (headerGet r ("user-agent".data)) rm.UserAgent)
    XForwardedForIP := truncateValue ApiFields.XForwardedForIP
      (useMetadata (headerGet r ("x-forwarded-for".data)) rm.XForwardedForIP)
    XRealIP := truncateValue ApiFields.XRealIP
      (useMetadata (headerGet r ("x-real-ip".data)) rm.XRealIP) }

/-- Model of `Client.buildHeader(r, rm)`: resolve protocol (override first),
then the address (override first; a failing `getIP` is the error return),
then the port (override first, `-1` replaced by the protocol default), then
assemble the record.  The Go receiver `c` is not read by the function body
and is therefore not a parameter here. -/
def buildHeader (r : HttpRequest) (rm : RequestMetadata) : Option Header :=
  let proto :=
    match rm.Protocol with
    | some p => p
    | none => getProtocol r
  let ipRes :=
    match rm.Addr with
    | some a => some a
    | none => getIP r
  match ipRes with
  | none => none
  | some ip =>
    let port0 := useMetadata (getPort r) rm.Port
    let port :=
      if port0 = -1 then (if proto = "https".data then 443 else 80) else port0
    some (buildHeaderFields r rm ip proto port)

/-- Model of the Go `Location` structure. -/
structure Location where
  City : Option GoString := none
  Country : Option GoString := none
  CountryCode : Option GoString := none
  deriving Repr, DecidableEq

/-- Model of the Go `SuccessResponsePayload` structure. -/
structure SuccessResponsePayload where
  Action : ResponseAction := []
  Status : ResponseStatus := []
  Reasons : List GoString := []
  EventID : Option GoString := none
  IP : Option GoString := none
  Location : Option Location := none
  Score : Option Int := none
  deriving Repr, DecidableEq

/-- Model of the Go `ErrorInfo` structure. -/
structure ErrorInfo where
  Field : GoString := []
  Error : GoString := []
  deriving Repr, DecidableEq

/-- Model of the Go `ErrorResponsePayload` structure. -/
structure ErrorResponsePayload where
  Message : Option GoString := none
  Errors : List ErrorInfo := []
  deriving Repr, DecidableEq

/-- Model of the Go `ResponsePayload` structure, which embeds
`SuccessResponsePayload` and `ErrorResponsePayload`; the two embedded parts
become explicit components. -/
structure ResponsePayload where
  success : SuccessResponsePayload := {}
  error : ErrorResponsePayload := {}
  deriving Repr, DecidableEq

/-- A response body as far as the SDK inspects it: `decodeResponse` tries to
JSON-decode it as a `ResponsePayload` and `handleErrorResponse` as an
`ErrorResponsePayload`; the body is characterized by those two decoding
outcomes (`none` models a `json.Unmarshal` error). -/
structure Body where
  asResponsePayload : Option ResponsePayload := none
  asErrorResponsePayload : Option ErrorResponsePayload := none
  deriving Repr, DecidableEq

/-- Outcome of one `performRequest` call, as observed by its callers.
`timeoutErr` is the `ErrRequestTimeout` return (a timing-out `httpClient.Do`),
`otherErr` any other error return (marshal failure, request construction
failure, non-timeout transport failure, body read failure), and
`success code body` the `(resp.StatusCode, responseBody, nil)` return. -/
inductive TransportResult where
  | timeoutErr
  | otherErr
  | success (statusCode : Int) (body : Body)
  deriving Repr, DecidableEq

/-- Errors surfaced by the SDK entry points, by provenance: `fingerprint` is
the wrapped `buildHeader` error, `requestTimeout` any error `err` with
`errors.Is(err, ErrRequestTimeout)`, `transportOther` the wrapped
non-timeout `performRequest` error, `decodeErr` the `decodeResponse` error
on a 2xx body. -/
inductive SdkError where
  | fingerprint
  | requestTimeout
  | transportOther
  | decodeErr
  deriving Repr, DecidableEq

/-- Model of `handleErrorResponse`: start from the allow/failure payload and,
when the body decodes as an `ErrorResponsePayload`, overwrite the embedded
error part with it. -/
def handleErrorResponse (body : Body) : ResponsePayload :=
  let responsePayload : ResponsePayload :=
    { success := { Action := Allow, Status := RespFailure } }
  match body.asErrorResponsePayload with
  | none => responsePayload
  | some resp => { responsePayload with error := resp }

/-- Outcome normalization shared, token for token, by the four event
`Validate` methods (`LoginEvent`, `RegistrationEvent`, `AccountUpdateEvent`,
`PasswordUpdateEvent`): the payload assembly and endpoint do not influence
the returned pair, which is a function of the `performRequest` outcome. -/
def validateNormalize (t : TransportResult) : Option ResponsePayload × Option SdkError :=
  match t with
  | .timeoutErr =>
    (some { success := { Action := Allow, Status := RespTimeout } },
      some SdkError.requestTimeout)
  | .otherErr =>
    (some { success := { Action := Allow, Status := RespFailure } },
      some SdkError.transportOther)
  | .success statusCode body =>
    if ¬ (statusCode ≥ 200 ∧ statusCode < 300) then
      (some (handleErrorResponse body), none)
    else
      match body.asResponsePayload with
      | none =>
        (some { success := { Action := Allow, Status := RespFailure } },
          some SdkError.decodeErr)
      | some resp =>
        (some { resp with success := { resp.success with Status := RespOK } }, none)

/-- Outcome normalization shared by the four event `Collect` methods: an error
from `performRequest` is passed through, a non-2xx status yields the error
part of `handleErrorResponse`, a 2xx status yields `(nil, nil)`. -/
def collectNormalize (t : TransportResult) : Option ErrorResponsePayload × Option SdkError :=
  match t with
  | .timeoutErr => (none, some SdkError.requestTimeout)
  | .otherErr => (none, some SdkError.transportOther)
  | .success statusCode body =>
    if ¬ (statusCode ≥ 200 ∧ statusCode < 300) then
      (some (handleErrorResponse body).error, none)
    else (none, none)

/-- The four event types implementing the Go `Event` interface. -/
inductive EventKind where
  | login
  | registration
  | accountUpdate
  | passwordUpdate
  deriving Repr, DecidableEq

/-- Model of `LoginEvent.Validate` as a function of the transport outcome. -/
def LoginEvent.Validate (t : TransportResult) : Option ResponsePayload × Option SdkError :=
  validateNormalize t

/-- Model of `RegistrationEvent.Validate` as a function of the transport
outcome. -/
def RegistrationEvent.Validate (t : TransportResult) : Option ResponsePayload × Option SdkError :=
  validateNormalize t

/-- Model of `AccountUpdateEvent.Validate` as a function of the transport
outcome. -/
def AccountUpdateEvent.Validate (t : TransportResult) : Option ResponsePayload × Option SdkError :=
  validateNormalize t

/-- Model of `PasswordUpdateEvent.Validate` as a function of the transport
outcome. -/
def PasswordUpdateEvent.Validate (t : TransportResult) : Option ResponsePayload × Option SdkError :=
  validateNormalize t

/-- Dispatch of `event.Validate` over the four event types. -/
def eventValidate (ev : EventKind) (t : TransportResult) :
    Option ResponsePayload × Option SdkError :=
  match ev with
  | .login => LoginEvent.Validate t
  | .registration => RegistrationEvent.Validate t
  | .accountUpdate => AccountUpdateEvent.Validate t
  | .passwordUpdate => PasswordUpdateEvent.Validate t

/-- Dispatch of `event.Collect` over the four event types (the four `Collect`
methods share their normalization token for token). -/
def eventCollect (ev : EventKind) (t : TransportResult) :
    Option ErrorResponsePayload × Option SdkError :=
  match ev with
  | .login => collectNormalize t
  | .registration => collectNormalize t
  | .accountUpdate => collectNormalize t
  | .passwordUpdate => collectNormalize t

/-- Model of `Client.validate`: `buildHeader`, whose error becomes the wrapped
fingerprint error with a nil response, then the event's `Validate` on the
transport outcome `t`. -/
def clientValidate (r : HttpRequest) (rm : RequestMetadata) (ev : EventKind)
    (t : TransportResult) : Option ResponsePayload × Option SdkError :=
  match buildHeader r rm with
  | none => (none, some SdkError.fingerprint)
  | some _ => eventValidate ev t

/-- Model of `Client.collect`: `buildHeader`, whose error becomes the wrapped
fingerprint error, then the event's `Collect`. -/
def clientCollect (r : HttpRequest) (rm : RequestMetadata) (ev : EventKind)
    (t : TransportResult) : Option ErrorResponsePayload × Option SdkError :=
  match buildHeader r rm with
  | none => (none, some SdkError.fingerprint)
  | some _ => eventCollect ev t

/-- Model of `Client.ValidateWithRequestMetadata`: a nil metadata pointer is
replaced by the empty `RequestMetadata`. -/
def validateWithRequestMetadata (r : HttpRequest) (orm : Option RequestMetadata)
    (ev : EventKind) (t : TransportResult) : Option ResponsePayload × Option SdkError :=
  clientValidate r (match orm with | none => {} | some rm => rm) ev t

/-- Model of `Client.CollectWithRequestMetadata`: a nil metadata pointer is
replaced by the empty `RequestMetadata`. -/
def collectWithRequestMetadata (r : HttpRequest) (orm : Option RequestMetadata)
    (ev : EventKind) (t : TransportResult) : Option ErrorResponsePayload × Option SdkError :=
  clientCollect r (match orm with | none => {} | some rm => rm) ev t

/-- Externally determined outcome of one run of `performRequest`: where the
straight-line code can first diverge.  `doErr` is `httpClient.Do` returning an
error (with the timeout discrimination), `doOk` is `Do` returning a response,
together with the outcome of `io.ReadAll(resp.Body)` (`none` models a read
error). -/
inductive PerformOutcome where
  | marshalErr
  | newRequestErr
  | doErr (isTimeout : Bool)
  | doOk (statusCode : Int) (readResult : Option GoString)
  deriving Repr, DecidableEq

/-- Observable trace of one `performRequest` run.  `bodyClosed` records
whether `resp.Body.Close()` was invoked before the function returned: a
deferred close runs at a `return` only if the `defer` statement was executed
before that `return` was reached. -/
structure PerformTrace where
  httpCallSucceeded : Bool
  bodyClosed : Bool
  ret : Int × Option GoString × Option SdkError
  deriving Repr, DecidableEq

/-- Model of `performRequest`, statement by statement.  After a successful
`Do`, the source first runs `io.ReadAll(resp.Body)` and returns on a read
error; only after that does it execute `defer resp.Body.Close()`, so the
deferred close is registered (and later run) solely on the successful-read
path. -/
def performRequestRun (o : PerformOutcome) : PerformTrace :=
  match o with
  | .marshalErr =>
    { httpCallSucceeded := false, bodyClosed := false,
      ret := (-1, none, some SdkError.transportOther) }
  | .newRequestErr =>
    { httpCallSucceeded := false, bodyClosed := false,
      ret := (-1, none, some SdkError.transportOther) }
  | .doErr isTimeout =>
    { httpCallSucceeded := false, bodyClosed := false,
      ret := (-1, none,
        some (if isTimeout then SdkError.requestTimeout else SdkError.transportOther)) }
  | .doOk _ none =>
    { httpCallSucceeded := true, bodyClosed := false,
      ret := (-1, none, some SdkError.transportOther) }
  | .doOk statusCode (some responseBody) =>
    { httpCallSucceeded := true, bodyClosed := true,
      ret := (statusCode, some responseBody, none) }

/-- The request with no headers, cookies, host, or TLS. -/
def emptyRequest : HttpRequest :=
  { headers := [], cookies := [], Host := [], Method := [], RemoteAddr := [],
    URLPath := [], URLRawQuery := [], tls := false }

/-- A plaintext request whose `x-forwarded-proto` header is the upper-case
value "HTTPS". -/
def reqXfpHTTPS : HttpRequest :=
  { emptyRequest with headers := [(("x-forwarded-proto".data), ("HTTPS".data))] }

/-- C1: the claim states that whenever `httpClient.Do` returns a response,
`performRequest` closes the response body on every exit path, including the
path where reading the body fails.  Evaluating the embedded code on that
failing input — `Do` succeeds, `io.ReadAll` fails — shows the body is not
closed there (the `defer` registering the close is only reached after a
successful read), while on the successful-read path it is closed. -/
theorem C1_body_not_closed_on_read_failure :
    (performRequestRun (PerformOutcome.doOk 200 none)).httpCallSucceeded = true ∧
    (performRequestRun (PerformOutcome.doOk 200 none)).bodyClosed = false ∧
    (performRequestRun (PerformOutcome.doOk 200 (some ("x".data)))).bodyClosed = true := by
  decide

/-- C2 (counterexample): a request carrying `x-forwarded-proto: HTTPS` on a
plaintext connection makes `getProtocol` return the verbatim header value
"HTTPS", not the exact string "https" required by the claim. -/
theorem C2_counterexample :
    eqFold (headerGet reqXfpHTTPS ("x-forwarded-proto".data)) ("https".data) = true ∧
    reqXfpHTTPS.tls = false ∧
    getProtocol reqXfpHTTPS ≠ "https".data := by
  decide

/-- C2 (amended): `getProtocol` returns the header's verbatim value — in its
original letter case — whenever the `x-forwarded-proto` header equals "http"
or "https" under case-insensitive comparison; if the header matches neither,
the result is "https" when the request carries a TLS connection state and
"http" otherwise. -/
theorem C2_amended_protocol (r : HttpRequest) :
    (eqFold (headerGet r ("x-forwarded-proto".data)) ("http".data) = true ∨
        eqFold (headerGet r ("x-forwarded-proto".data)) ("https".data) = true →
      getProtocol r = headerGet r ("x-forwarded-proto".data)) ∧
    (eqFold (headerGet r ("x-forwarded-proto".data)) ("http".data) = false →
      eqFold (headerGet r ("x-forwarded-proto".data)) ("https".data) = false →
      getProtocol r = if r.tls then "https".data else "http".data) := by
  unfold getProtocol
  constructor
  · intro h
    rcases h with h | h <;> simp [h]
  · intro h1 h2
    simp [h1, h2]

/-- C2 (witness): the amended protocol theorem applied at the concrete
upper-case-header request. -/
theorem C2_amended_protocol_witness :
    getProtocol reqXfpHTTPS = headerGet reqXfpHTTPS ("x-forwarded-proto".data) :=
  (C2_amended_protocol reqXfpHTTPS).1 (Or.inr (by decide))

/-- C4: for every event type, when `performRequest` returns an error,
`Validate` returns a non-nil response and a non-nil error; the response's
action is allow, and its status is timeout exactly when the error is the
distinguished `ErrRequestTimeout`, failure for every other transport error. -/
theorem C4_transport_error_dual_signal (ev : EventKind) (t : TransportResult)
    (ht : t = TransportResult.timeoutErr ∨ t = TransportResult.otherErr) :
    (eventValidate ev t).1.isSome = true ∧
    (eventValidate ev t).2.isSome = true ∧
    Option.map (fun p => p.success.Action) (eventValidate ev t).1 = some Allow ∧
    (Option.map (fun p => p.success.Status) (eventValidate ev t).1 = some RespTimeout ↔
      (eventValidate ev t).2 = some SdkError.requestTimeout) ∧
    ((eventValidate ev t).2 ≠ some SdkError.requestTimeout →
      Option.map (fun p => p.success.Status) (eventValidate ev t).1 = some RespFailure) := by
  rcases ht with rfl | rfl <;> cases ev <;> decide

/-- C4 (witness): the dual-signal theorem applied to a login event whose
request timed out. -/
theorem C4_transport_error_dual_signal_witness :
    (eventValidate EventKind.login TransportResult.timeoutErr).1.isSome = true ∧
    (eventValidate EventKind.login TransportResult.timeoutErr).2.isSome = true :=
  ⟨(C4_transport_error_dual_signal EventKind.login TransportResult.timeoutErr
      (Or.inl rfl)).1,
    (C4_transport_error_dual_signal EventKind.login TransportResult.timeoutErr
      (Or.inl rfl)).2.1⟩

/-- C5: for every event type, on a remote status code in `[200,300)`: a body
that decodes as a `ResponsePayload` is returned with status forced to ok,
the action taken from the body, and a nil error; a body that fails to decode
yields an allow/failure response together with the decode error. -/
theorem C5_success_status_forced_ok (ev : EventKind) (code : Int) (body : Body)
    (h2xx : 200 ≤ code ∧ code < 300) :
    (∀ p, body.asResponsePayload = some p →
      eventValidate ev (TransportResult.success code body) =
        (some { p with success := { p.success with Status := RespOK } }, none)) ∧
    (body.asResponsePayload = none →
      eventValidate ev (TransportResult.success code body) =
        (some { success := { Action := Allow, Status := RespFailure } },
          some SdkError.decodeErr)) := by
  cases ev <;>
    refine ⟨fun p hp => ?_, fun hp => ?_⟩ <;>
      simp [eventValidate, LoginEvent.Validate, RegistrationEvent.Validate,
        AccountUpdateEvent.Validate, PasswordUpdateEvent.Validate,
        validateNormalize, hp, h2xx.1, h2xx.2]

/-- C5 (witness): a login event with a 200 response whose body decodes with
action deny yields status ok and action deny, per the spec's end-to-end
scenario. -/
theorem C5_success_status_forced_ok_witness :
    eventValidate EventKind.login
        (TransportResult.success 200
          { asResponsePayload := some { success := { Action := Deny } } }) =
      (some { success := { Action := Deny, Status := RespOK } }, none) :=
  (C5_success_status_forced_ok EventKind.login 200
      { asResponsePayload := some { success := { Action := Deny } } }
      (by decide)).1
    { success := { Action := Deny } } rfl

/-- C6: for every event type, on a remote status code outside `[200,300)`,
`Validate` returns a nil error and an allow/failure response; when the body
decodes as an error payload the response carries its message and field
errors, and when it does not decode the bare allow/failure response is
returned with no error surfaced. -/
theorem C6_non2xx_fail_open (ev : EventKind) (code : Int) (body : Body)
    (hout : code < 200 ∨ 300 ≤ code) :
    (eventValidate ev (TransportResult.success code body)).2 = none ∧
    Option.map (fun p => p.success.Action)
        (eventValidate ev (TransportResult.success code body)).1 = some Allow ∧
    Option.map (fun p => p.success.Status)
        (eventValidate ev (TransportResult.success code body)).1 = some RespFailure ∧
    (∀ e, body.asErrorResponsePayload = some e →
      (eventValidate ev (TransportResult.success code body)).1 =
        some { success := { Action := Allow, Status := RespFailure }, error := e }) ∧
    (body.asErrorResponsePayload = none →
      (eventValidate ev (TransportResult.success code body)).1 =
        some { success := { Action := Allow, Status := RespFailure }, error := {} }) := by
  have hc : ¬ (code ≥ 200 ∧ code < 300) := by omega
  cases ev <;>
    refine ⟨?_, ?_, ?_, fun e he => ?_, fun he => ?_⟩ <;>
      simp [eventValidate, LoginEvent.Validate, RegistrationEvent.Validate,
        AccountUpdateEvent.Validate, PasswordUpdateEvent.Validate,
        validateNormalize, handleErrorResponse, hc] <;>
      cases hbe : body.asErrorResponsePayload <;>
        simp_all [handleErrorResponse]

/-- C6 (witness): the spec's end-to-end 403 scenario, with a decoded message
"blocked" and one field error on "account". -/
theorem C6_non2xx_fail_open_witness :
    (eventValidate EventKind.login
        (TransportResult.success 403
          { asErrorResponsePayload :=
              some { Message := some ("blocked".data),
                     Errors := [{ Field := "account".data,
                                  Error := "invalid".data }] } })).1 =
      some { success := { Action := Allow, Status := RespFailure },
             error := { Message := some ("blocked".data),
                        Errors := [{ Field := "account".data,
                                     Error := "invalid".data }] } } :=
  (C6_non2xx_fail_open EventKind.login 403
      { asErrorResponsePayload :=
          some { Message := some ("blocked".data),
                 Errors := [{ Field := "account".data,
                              Error := "invalid".data }] } }
      (by decide)).2.2.2.1
    { Message := some ("blocked".data),
      Errors := [{ Field := "account".data, Error := "invalid".data }] } rfl

/-- Every response produced by the shared validate normalization is present
and carries one of the three terminal statuses. -/
theorem validateNormalize_status (t : TransportResult) :
    (validateNormalize t).1.isSome = true ∧
    ∀ p, (validateNormalize t).1 = some p →
      p.success.Status = RespOK ∨ p.success.Status = RespFailure ∨
        p.success.Status = RespTimeout := by
  cases t with
  | timeoutErr =>
    refine ⟨rfl, fun p hp => ?_⟩
    simp only [validateNormalize, Option.some.injEq] at hp
    subst hp
    right; right; rfl
  | otherErr =>
    refine ⟨rfl, fun p hp => ?_⟩
    simp only [validateNormalize, Option.some.injEq] at hp
    subst hp
    right; left; rfl
  | success code body =>
    by_cases hc : code ≥ 200 ∧ code < 300
    · cases hbp : body.asResponsePayload with
      | none =>
        refine ⟨?_, fun p hp => ?_⟩
        · simp [validateNormalize, hc, hbp]
        · simp only [validateNormalize, hc, hbp, not_true_eq_false, if_false,
            not_and, not_lt, if_neg, Option.some.injEq] at hp
          simp [hc, hbp] at hp
          subst hp
          right; left; rfl
      | some q =>
        refine ⟨?_, fun p hp => ?_⟩
        · simp [validateNormalize, hc, hbp]
        · simp [validateNormalize, hc, hbp] at hp
          subst hp
          left; rfl
    · refine ⟨?_, fun p hp => ?_⟩
      · simp [validateNormalize, hc]
      · simp [validateNormalize, hc] at hp
        subst hp
        unfold handleErrorResponse
        cases body.asErrorResponsePayload <;> (right; left; rfl)

/-- Reduction of `eventValidate` to the shared normalization, for each event
type. -/
theorem eventValidate_eq_normalize (ev : EventKind) (t : TransportResult) :
    eventValidate ev t = validateNormalize t := by
  cases ev <;> rfl

/-- C7: for every event type and every transport outcome, the validate entry
point returns a usable response whose status is one of ok, failure, timeout,
as soon as the fingerprint was constructed; a nil response only arises from a
fingerprint-derivation failure. -/
theorem C7_always_usable_response (ev : EventKind) (r : HttpRequest)
    (rm : RequestMetadata) (t : TransportResult) :
    ((buildHeader r rm).isSome = true →
      (clientValidate r rm ev t).1.isSome = true ∧
      ∀ p, (clientValidate r rm ev t).1 = some p →
        p.success.Status = RespOK ∨ p.success.Status = RespFailure ∨
          p.success.Status = RespTimeout) ∧
    ((clientValidate r rm ev t).1 = none → buildHeader r rm = none) := by
  constructor
  · intro hbs
    obtain ⟨hd, hb⟩ := Option.isSome_iff_exists.mp hbs
    have hcv : clientValidate r rm ev t = eventValidate ev t := by
      simp [clientValidate, hb]
    rw [hcv, eventValidate_eq_normalize]
    exact validateNormalize_status t
  · intro hnone
    cases hb : buildHeader r rm with
    | none => rfl
    | some hd =>
      exfalso
      have hs : (clientValidate r rm ev t).1.isSome = true := by
        have hcv : clientValidate r rm ev t = eventValidate ev t := by
          simp [clientValidate, hb]
        rw [hcv, eventValidate_eq_normalize]
        exact (validateNormalize_status t).1
      rw [hnone] at hs
      exact Bool.noConfusion hs

/-- A request whose remote address is a well-formed host:port pair. -/
def reqValidAddr : HttpRequest :=
  { emptyRequest with RemoteAddr := "127.0.0.1:1234".data }

/-- C7 (witness): the usable-response theorem applied to a login event, a
concrete request, no overrides, and a timed-out transport. -/
theorem C7_always_usable_response_witness :
    (clientValidate reqValidAddr {} EventKind.login TransportResult.timeoutErr).1.isSome
      = true :=
  ((C7_always_usable_response EventKind.login reqValidAddr {}
      TransportResult.timeoutErr).1 (by decide)).1

/-- The validate normalization never reports a fingerprint error: its error
slot only carries transport or decode provenances. -/
theorem validateNormalize_no_fingerprint (t : TransportResult) :
    (validateNormalize t).2 ≠ some SdkError.fingerprint := by
  cases t with
  | timeoutErr => simp [validateNormalize]
  | otherErr => simp [validateNormalize]
  | success code body =>
    by_cases hc : code ≥ 200 ∧ code < 300 <;>
      cases hbp : body.asResponsePayload <;>
        simp [validateNormalize, hc, hbp]

/-- The collect normalization never reports a fingerprint error. -/
theorem collectNormalize_no_fingerprint (t : TransportResult) :
    (collectNormalize t).2 ≠ some SdkError.fingerprint := by
  cases t with
  | timeoutErr => simp [collectNormalize]
  | otherErr => simp [collectNormalize]
  | success code body =>
    by_cases hc : code ≥ 200 ∧ code < 300 <;> simp [collectNormalize, hc]

/-- The metadata override whose only populated slot is `Addr`. -/
def rmAddrOnly : RequestMetadata := { Addr := some ("1.2.3.4".data) }

/-- C10: `buildHeader` fails exactly when the `Addr` override is nil and the
request's `RemoteAddr` does not split as host:port; with a non-nil `Addr`
override the fingerprint construction succeeds for every request, so the
metadata entry points never report a fingerprint error. -/
theorem C10_buildHeader_error_iff (r : HttpRequest) (rm : RequestMetadata)
    (ev : EventKind) (t : TransportResult) :
    (buildHeader r rm = none ↔ rm.Addr = none ∧ splitHostPort r.RemoteAddr = none) ∧
    (∀ a, rm.Addr = some a →
      (buildHeader r rm).isSome = true ∧
      (validateWithRequestMetadata r (some rm) ev t).2 ≠ some SdkError.fingerprint ∧
      (collectWithRequestMetadata r (some rm) ev t).2 ≠ some SdkError.fingerprint) := by
  constructor
  · unfold buildHeader getIP
    cases hA : rm.Addr <;> cases hS : splitHostPort r.RemoteAddr <;> simp [hA, hS]
  · intro a hA
    have hb : (buildHeader r rm).isSome = true := by
      unfold buildHeader
      simp [hA]
    refine ⟨hb, ?_, ?_⟩
    · obtain ⟨hd, hbe⟩ := Option.isSome_iff_exists.mp hb
      have : validateWithRequestMetadata r (some rm) ev t = eventValidate ev t := by
        simp [validateWithRequestMetadata, clientValidate, hbe]
      rw [this, eventValidate_eq_normalize]
      exact validateNormalize_no_fingerprint t
    · obtain ⟨hd, hbe⟩ := Option.isSome_iff_exists.mp hb
      have : collectWithRequestMetadata r (some rm) ev t = eventCollect ev t := by
        simp [collectWithRequestMetadata, clientCollect, hbe]
      rw [this]
      cases ev <;> exact collectNormalize_no_fingerprint t

/-- C10 (witness): the theorem applied to a request with an empty (hence
unsplittable) `RemoteAddr` and an `Addr` override. -/
theorem C10_buildHeader_error_iff_witness :
    (buildHeader emptyRequest rmAddrOnly).isSome = true :=
  ((C10_buildHeader_error_iff emptyRequest rmAddrOnly EventKind.login
      TransportResult.timeoutErr).2 ("1.2.3.4".data) rfl).1

/-- Limit table exactly as claim C8 states it, one entry per field (the
claim's spec-level names device-memory, ua-mobile, ua-arch, ua-platform,
content-type, client-id, accept-charset, accept-encoding, connection, from,
ua-brand, ua-model, real-ip, accept-language, ua-full-version-list, origin,
server-hostname, accept, host, forwarded-for, user-agent, referer,
request-path correspond in this order to the `ApiFields` constants below);
every other field gets 0. -/
def claimLimitTable (f : ApiFields) : Int :=
  if f = ApiFields.SecCHDeviceMemory then 8
  else if f = ApiFields.SecCHUAMobile then 8
  else if f = ApiFields.SecCHUAArch then 16
  else if f = ApiFields.SecCHUAPlatform then 32
  else if f = ApiFields.ContentType then 64
  else if f = ApiFields.ClientID then 128
  else if f = ApiFields.AcceptCharset then 128
  else if f = ApiFields.AcceptEncoding then 128
  else if f = ApiFields.Connection then 128
  else if f = ApiFields.From then 128
  else if f = ApiFields.SecCHUA then 128
  else if f = ApiFields.SecCHUAModel then 128
  else if f = ApiFields.XRealIP then 128
  else if f = ApiFields.AcceptLanguage then 256
  else if f = ApiFields.SecCHUAFullVersionList then 256
  else if f = ApiFields.Origin then 512
  else if f = ApiFields.ServerHostname then 512
  else if f = ApiFields.Accept then 512
  else if f = ApiFields.Host then 512
  else if f = ApiFields.XForwardedForIP then -512
  else if f = ApiFields.UserAgent then 768
  else if f = ApiFields.Referer then 1024
  else if f = ApiFields.Request then 2048
  else 0

/-- First `n` bytes of `v`, as worded by claim C8. -/
def firstBytes (n : Nat) (v : GoString) : GoString := v.take n

/-- Last `n` bytes of `v`, as worded by claim C8 (taken from the back). -/
def lastBytes (n : Nat) (v : GoString) : GoString := (v.reverse.take n).reverse

/-- Truncation exactly as the reference definition in claim C8 states it. -/
def claimTruncate (f : ApiFields) (v : GoString) : GoString :=
  let L := claimLimitTable f
  if 0 < L ∧ (v.length : Int) > L then firstBytes L.toNat v
  else if L < 0 ∧ (v.length : Int) > -L then lastBytes (-L).toNat v
  else v

/-- Taking the last `n` bytes is dropping all but the last `n`. -/
theorem lastBytes_eq_drop (n : Nat) (v : GoString) :
    lastBytes n v = v.drop (v.length - n) := by
  rw [lastBytes, ← List.rtake_eq_reverse_take_reverse, List.rtake]

/-- The truncation-size table of the source agrees everywhere with the table
stated by claim C8. -/
theorem getTruncationSize_eq_claim (f : ApiFields) :
    getTruncationSize f = claimLimitTable f := by
  by_cases h1 : f = ApiFields.SecCHDeviceMemory
  · subst h1; decide
  by_cases h2 : f = ApiFields.SecCHUAMobile
  · subst h2; decide
  by_cases h3 : f = ApiFields.SecCHUAArch
  · subst h3; decide
  by_cases h4 : f = ApiFields.SecCHUAPlatform
  · subst h4; decide
  by_cases h5 : f = ApiFields.ContentType
  · subst h5; decide
  by_cases h6 : f = ApiFields.ClientID
  · subst h6; decide
  by_cases h7 : f = ApiFields.AcceptCharset
  · subst h7; decide
  by_cases h8 : f = ApiFields.AcceptEncoding
  · subst h8; decide
  by_cases h9 : f = ApiFields.Connection
  · subst h9; decide
  by_cases h10 : f = ApiFields.From
  · subst h10; decide
  by_cases h11 : f = ApiFields.SecCHUA
  · subst h11; decide
  by_cases h12 : f = ApiFields.SecCHUAModel
  · subst h12; decide
  by_cases h13 : f = ApiFields.XRealIP
  · subst h13; decide
  by_cases h14 : f = ApiFields.AcceptLanguage
  · subst h14; decide
  by_cases h15 : f = ApiFields.SecCHUAFullVersionList
  · subst h15; decide
  by_cases h16 : f = ApiFields.Origin
  · subst h16; decide
  by_cases h17 : f = ApiFields.ServerHostname
  · subst h17; decide
  by_cases h18 : f = ApiFields.Accept
  · subst h18; decide
  by_cases h19 : f = ApiFields.Host
  · subst h19; decide
  by_cases h20 : f = ApiFields.XForwardedForIP
  · subst h20; decide
  by_cases h21 : f = ApiFields.UserAgent
  · subst h21; decide
  by_cases h22 : f = ApiFields.Referer
  · subst h22; decide
  by_cases h23 : f = ApiFields.Request
  · subst h23; decide
  simp [getTruncationSize, claimLimitTable, h1, h2, h3, h4, h5, h6, h7, h8, h9, h10, h11, h12, h13, h14, h15, h16, h17, h18, h19, h20, h21, h22, h23]

/-- C8: for every field name and every value, `truncateValue` agrees with the
reference definition of claim C8 (first `L` bytes for positive limits, last
`|L|` bytes for the negative limit, identity otherwise) keyed by precisely
the claimed table. -/
theorem C8_truncate_matches_reference (f : ApiFields) (v : GoString) :
    truncateValue f v = claimTruncate f v := by
  by_cases hv : v = []
  · subst hv
    simp only [truncateValue, claimTruncate, if_pos rfl]
    split_ifs <;> simp [firstBytes, lastBytes]
  · simp only [truncateValue, claimTruncate, if_neg hv, getTruncationSize_eq_claim]
    by_cases hneg : claimLimitTable f < 0 ∧ (v.length : Int) > -1 * claimLimitTable f
    · rw [if_pos hneg]
      have h1 : ¬ (0 < claimLimitTable f ∧ (v.length : Int) > claimLimitTable f) := by
        obtain ⟨h, h'⟩ := hneg
        intro hx
        omega
      have h2 : claimLimitTable f < 0 ∧ (v.length : Int) > -claimLimitTable f := by
        obtain ⟨h, h'⟩ := hneg
        exact ⟨h, by omega⟩
      rw [if_neg h1, if_pos h2, lastBytes_eq_drop]
      congr 1
      omega
    · rw [if_neg hneg]
      by_cases hpos : claimLimitTable f > 0 ∧ (v.length : Int) > claimLimitTable f
      · rw [if_pos hpos, if_pos (show 0 < claimLimitTable f ∧
          (v.length : Int) > claimLimitTable f from hpos)]
        rfl
      · rw [if_neg hpos,
          if_neg (show ¬ (0 < claimLimitTable f ∧
            (v.length : Int) > claimLimitTable f) from hpos),
          if_neg (show ¬ (claimLimitTable f < 0 ∧
            (v.length : Int) > -claimLimitTable f) from by
              intro h
              exact hneg ⟨h.1, by omega⟩)]

/-- Inversion of `buildHeader`: a successful build is the record literal at
the resolved address, protocol, and port. -/
theorem buildHeader_inv (r : HttpRequest) (rm : RequestMetadata) (h : Header)
    (hb : buildHeader r rm = some h) :
    ∃ ip,
      (match rm.Addr with | some a => some a | none => getIP r) = some ip ∧
      h = buildHeaderFields r rm ip
            (match rm.Protocol with | some p => p | none => getProtocol r)
            (if useMetadata (getPort r) rm.Port = -1 then
              (if (match rm.Protocol with | some p => p | none => getProtocol r) =
                  "https".data then 443 else 80)
             else useMetadata (getPort r) rm.Port) := by
  unfold buildHeader at hb
  cases hA : rm.Addr with
  | some a =>
    rw [hA] at hb
    simp only [] at hb
    exact ⟨a, rfl, (Option.some.inj hb).symm⟩
  | none =>
    rw [hA] at hb
    cases hI : getIP r with
    | none =>
      rw [hI] at hb
      exact absurd hb (by simp)
    | some ip =>
      rw [hI] at hb
      exact ⟨ip, rfl, (Option.some.inj hb).symm⟩

/-- A request whose Host header carries a port segment that parses to `-1`. -/
def reqPortMinusOne : HttpRequest :=
  { emptyRequest with Host := "example.com:-1".data, RemoteAddr := "127.0.0.1:1234".data }

/-- C9 (counterexample): a Host of "example.com:-1" has a parsable port
segment (it splits, and the segment parses to the integer `-1`), yet the
built header's port is the protocol default 80, not the parsed number. -/
theorem C9_counterexample :
    splitHostPort reqPortMinusOne.Host = some ("example.com".data, "-1".data) ∧
    atoi ("-1".data) = some (-1) ∧
    Option.map Header.Port (buildHeader reqPortMinusOne {}) = some 80 := by
  decide

/-- C9 (amended): with no Port override, a Host whose port segment parses to
a number other than `-1` puts that number in the built header; if the Host
has no parsable port — or its port parses to exactly `-1`, which the code
treats as the no-port sentinel — the port defaults to 443 for protocol
"https" and 80 otherwise. -/
theorem C9_amended_port (r : HttpRequest) (rm : RequestMetadata) (h : Header)
    (hb : buildHeader r rm = some h) (hrm : rm.Port = none) :
    (∀ hs ps n, splitHostPort r.Host = some (hs, ps) → atoi ps = some n → n ≠ -1 →
      h.Port = n) ∧
    ((∀ hs ps, splitHostPort r.Host = some (hs, ps) → atoi ps = none) →
      h.Port = if h.Protocol = "https".data then 443 else 80) ∧
    (∀ hs ps, splitHostPort r.Host = some (hs, ps) → atoi ps = some (-1) →
      h.Port = if h.Protocol = "https".data then 443 else 80) := by
  obtain ⟨ip, hA, hEq⟩ := buildHeader_inv r rm h hb
  subst hEq
  simp only [buildHeaderFields, hrm, useMetadata]
  refine ⟨fun hs ps n hsp hat hne => ?_, fun hall => ?_, fun hs ps hsp hat => ?_⟩
  · have hgp : getPort r = n := by
      by_cases hH : r.Host = []
      · rw [hH] at hsp
        simp [splitHostPort, lastIndexOf] at hsp
      · simp [getPort, hH, hsp, hat]
    rw [hgp, if_neg hne]
  · have hgp : getPort r = -1 := by
      by_cases hH : r.Host = []
      · simp [getPort, hH]
      · cases hsp : splitHostPort r.Host with
        | none => simp [getPort, hH, hsp]
        | some pr => simp [getPort, hH, hsp, hall pr.1 pr.2 (by rw [hsp])]
    rw [hgp, if_pos rfl]
  · have hgp : getPort r = -1 := by
      by_cases hH : r.Host = []
      · simp [getPort, hH]
      · simp [getPort, hH, hsp, hat]
    rw [hgp, if_pos rfl]

/-- The concrete request with Host "example.com:8080" and a valid remote
address. -/
def reqPort8080 : HttpRequest :=
  { emptyRequest with Host := "example.com:8080".data, RemoteAddr := "127.0.0.1:1234".data }

/-- The header built from `reqPort8080` with no overrides. -/
def headerPort8080 : Header :=
  buildHeaderFields reqPort8080 {} ("127.0.0.1".data) ("http".data) 8080

/-- C9 (witness): the amended theorem applied to the concrete request with
Host "example.com:8080" and no overrides: the built port is 8080. -/
theorem C9_amended_port_witness : headerPort8080.Port = 8080 :=
  (C9_amended_port reqPort8080 {} headerPort8080 (by decide) rfl).1
    ("example.com".data) ("8080".data) 8080 (by decide) (by decide) (by decide)


/-- Override metadata setting a `Method` override and a `-1` Port override. -/
def rmC3cx : RequestMetadata := { Method := some ("POST".data), Port := some (-1) }

/-- A GET request with a valid remote address and nothing else. -/
def reqC3 : HttpRequest :=
  { emptyRequest with RemoteAddr := "127.0.0.1:1234".data, Method := "GET".data }

/-- C3 (counterexample): two non-nil `RequestMetadata` slots whose override
values are not placed into the built header: a `Method` override of "POST"
is ignored (the request's "GET" is used), and a `Port` override of `-1` is
replaced by the protocol default 80. -/
theorem C3_counterexample :
    rmC3cx.Method = some ("POST".data) ∧
    rmC3cx.Port = some (-1) ∧
    Option.map Header.Method (buildHeader reqC3 rmC3cx) = some ("GET".data) ∧
    Option.map Header.Port (buildHeader reqC3 rmC3cx) = some 80 := by
  decide

/-- C3 (amended): for every field of the fingerprint except `Method`, a
non-nil `RequestMetadata` slot makes `buildHeader` place the override value
(after the field's truncation, where one applies) into the resulting header,
and a nil slot makes it place the value derived from the request; the two
exceptions forced by the code are `Method`, whose override slot is ignored
(the request's method is always used), and a `Port` override of exactly
`-1`, which is treated as an absent port and replaced by the protocol
default. -/
theorem C3_amended_overrides (r : HttpRequest) (rm : RequestMetadata) (h : Header)
    (hb : buildHeader r rm = some h) :
    (∀ v, rm.Addr = some v → h.Addr = v) ∧
    (rm.Addr = none → getIP r = some h.Addr) ∧
    (∀ v, rm.Protocol = some v → h.Protocol = v) ∧
    (rm.Protocol = none → h.Protocol = getProtocol r) ∧
    (∀ v, rm.Port = some v → v ≠ -1 → h.Port = v) ∧
    (rm.Port = some (-1) → h.Port = if h.Protocol = "https".data then 443 else 80) ∧
    (rm.Port = none → h.Port = if getPort r = -1 then (if h.Protocol = "https".data then 443 else 80) else getPort r) ∧
    (h.Method = r.Method) ∧
    (∀ v, rm.Accept = some v → h.Accept = truncateValue ApiFields.Accept v) ∧
    (rm.Accept = none → h.Accept = truncateValue ApiFields.Accept (headerGet r ("accept".data))) ∧
    (∀ v, rm.AcceptCharset = some v → h.AcceptCharset = truncateValue ApiFields.AcceptCharset v) ∧
    (rm.AcceptCharset = none → h.AcceptCharset = truncateValue ApiFields.AcceptCharset (headerGet r ("accept-charset".data))) ∧
    (∀ v, rm.AcceptEncoding = some v → h.AcceptEncoding = truncateValue ApiFields.AcceptEncoding v) ∧
    (rm.AcceptEncoding = none → h.AcceptEncoding = truncateValue ApiFields.AcceptEncoding (headerGet r ("accept-encoding".data))) ∧
    (∀ v, rm.AcceptLanguage = some v → h.AcceptLanguage = truncateValue ApiFields.AcceptLanguage v) ∧
    (rm.AcceptLanguage = none → h.AcceptLanguage = truncateValue ApiFields.AcceptLanguage (headerGet r ("accept-language".data))) ∧
    (∀ v, rm.ClientID = some v → h.ClientID = truncateValue ApiFields.ClientID v) ∧
    (rm.ClientID = none → h.ClientID = truncateValue ApiFields.ClientID (getClientId r)) ∧
    (∀ v, rm.Connection = some v → h.Connection = truncateValue ApiFields.Connection v) ∧
    (rm.Connection = none → h.Connection = truncateValue ApiFields.Connection (headerGet r ("connection".data))) ∧
    (∀ v, rm.ContentType = some v → h.ContentType = truncateValue ApiFields.ContentType v) ∧
    (rm.ContentType = none → h.ContentType = truncateValue ApiFields.ContentType (headerGet r ("content-type".data))) ∧
    (∀ v, rm.From = some v → h.From = truncateValue ApiFields.From v) ∧
    (rm.From = none → h.From = truncateValue ApiFields.From (headerGet r ("from".data))) ∧
    (∀ v, rm.Host = some v → h.Host = truncateValue ApiFields.Host v) ∧
    (rm.Host = none → h.Host = truncateValue ApiFields.Host (r.Host)) ∧
    (∀ v, rm.Referer = some v → h.Referer = truncateValue ApiFields.Referer v) ∧
    (rm.Referer = none → h.Referer = truncateValue ApiFields.Referer (headerGet r ("referer".data))) ∧
    (∀ v, rm.Request = some v → h.Request = truncateValue ApiFields.Request v) ∧
    (rm.Request = none → h.Request = truncateValue ApiFields.Request (getURL r)) ∧
    (∀ v, rm.Origin = some v → h.Origin = truncateValue ApiFields.Origin v) ∧
    (rm.Origin = none → h.Origin = truncateValue ApiFields.Origin (headerGet r ("origin".data))) ∧
    (∀ v, rm.ServerHostname = some v → h.ServerHostname = truncateValue ApiFields.ServerHostname v) ∧
    (rm.ServerHostname = none → h.ServerHostname = truncateValue ApiFields.ServerHostname (r.Host)) ∧
    (∀ v, rm.UserAgent = some v → h.UserAgent = truncateValue ApiFields.UserAgent v) ∧
    (rm.UserAgent = none → h.UserAgent = truncateValue ApiFields.UserAgent (headerGet r ("user-agent".data))) ∧
    (∀ v, rm.XForwardedForIP = some v → h.XForwardedForIP = truncateValue ApiFields.XForwardedForIP v) ∧
    (rm.XForwardedForIP = none → h.XForwardedForIP = truncateValue ApiFields.XForwardedForIP (headerGet r ("x-forwarded-for".data))) ∧
    (∀ v, rm.XRealIP = some v → h.XRealIP = truncateValue ApiFields.XRealIP v) ∧
    (rm.XRealIP = none → h.XRealIP = truncateValue ApiFields.XRealIP (headerGet r ("x-real-ip".data))) ∧
    (∀ v, rm.SecCHUA = some v → h.SecCHUA = truncatePointerValue ApiFields.SecCHUA v) ∧
    (rm.SecCHUA = none → h.SecCHUA = truncatePointerValue ApiFields.SecCHUA (headerGet r ("sec-ch-ua".data))) ∧
    (∀ v, rm.SecCHUAMobile = some v → h.SecCHUAMobile = truncatePointerValue ApiFields.SecCHUAMobile v) ∧
    (rm.SecCHUAMobile = none → h.SecCHUAMobile = truncatePointerValue ApiFields.SecCHUAMobile (headerGet r ("sec-ch-ua-mobile".data))) ∧
    (∀ v, rm.SecCHUAPlatform = some v → h.SecCHUAPlatform = truncatePointerValue ApiFields.SecCHUAPlatform v) ∧
    (rm.SecCHUAPlatform = none → h.SecCHUAPlatform = truncatePointerValue ApiFields.SecCHUAPlatform (headerGet r ("sec-ch-ua-platform".data))) ∧
    (∀ v, rm.SecCHUAArch = some v → h.SecCHUAArch = truncatePointerValue ApiFields.SecCHUAArch v) ∧
    (rm.SecCHUAArch = none → h.SecCHUAArch = truncatePointerValue ApiFields.SecCHUAArch (headerGet r ("sec-ch-ua-arch".data))) ∧
    (∀ v, rm.SecCHUAFullVersionList = some v → h.SecCHUAFullVersionList = truncatePointerValue ApiFields.SecCHUAFullVersionList v) ∧
    (rm.SecCHUAFullVersionList = none → h.SecCHUAFullVersionList = truncatePointerValue ApiFields.SecCHUAFullVersionList (headerGet r ("sec-ch-ua-full-version-list".data))) ∧
    (∀ v, rm.SecCHUAModel = some v → h.SecCHUAModel = truncatePointerValue ApiFields.SecCHUAModel v) ∧
    (rm.SecCHUAModel = none → h.SecCHUAModel = truncatePointerValue ApiFields.SecCHUAModel (headerGet r ("sec-ch-ua-model".data))) ∧
    (∀ v, rm.SecCHDeviceMemory = some v → h.SecCHDeviceMemory = truncatePointerValue ApiFields.SecCHDeviceMemory v) ∧
    (rm.SecCHDeviceMemory = none → h.SecCHDeviceMemory = truncatePointerValue ApiFields.SecCHDeviceMemory (headerGet r ("sec-ch-device-memory".data))) := by
  obtain ⟨ip, hA, hEq⟩ := buildHeader_inv r rm h hb
  subst hEq
  simp only [buildHeaderFields]
  refine ⟨fun v hv => by rw [hv] at hA; exact (Option.some.inj hA).symm,
    fun hv => by rw [hv] at hA; exact hA,
    fun v hv => by simp [hv],
    fun hv => by simp [hv],
    fun v hv hne => by simp [hv, useMetadata, hne],
    fun hv => by simp [hv, useMetadata],
    fun hv => by simp [hv, useMetadata],
    trivial,
    fun v hv => by simp [hv, useMetadata],
    fun hv => by simp [hv, useMetadata],
    fun v hv => by simp [hv, useMetadata],
    fun hv => by simp [hv, useMetadata],
    fun v hv => by simp [hv, useMetadata],
    fun hv => by simp [hv, useMetadata],
    fun v hv => by simp [hv, useMetadata],
    fun hv => by simp [hv, useMetadata],
    fun v hv => by simp [hv, useMetadata],
    fun hv => by simp [hv, useMetadata],
    fun v hv => by simp [hv, useMetadata],
    fun hv => by simp [hv, useMetadata],
    fun v hv => by simp [hv, useMetadata],
    fun hv => by simp [hv, useMetadata],
    fun v hv => by simp [hv, useMetadata],
    fun hv => by simp [hv, useMetadata],
    fun v hv => by simp [hv, useMetadata],
    fun hv => by simp [hv, useMetadata],
    fun v hv => by simp [hv, useMetadata],
    fun hv => by simp [hv, useMetadata],
    fun v hv => by simp [hv, useMetadata],
    fun hv => by simp [hv, useMetadata],
    fun v hv => by simp [hv, useMetadata],
    fun hv => by simp [hv, useMetadata],
    fun v hv => by simp [hv, useMetadata],
    fun hv => by simp [hv, useMetadata],
    fun v hv => by simp [hv, useMetadata],
    fun hv => by simp [hv, useMetadata],
    fun v hv => by simp [hv, useMetadata],
    fun hv => by simp [hv, useMetadata],
    fun v hv => by simp [hv, useMetadata],
    fun hv => by simp [hv, useMetadata],
    fun v hv => by simp [hv, useMetadata],
    fun hv => by simp [hv, useMetadata],
    fun v hv => by simp [hv, useMetadata],
    fun hv => by simp [hv, useMetadata],
    fun v hv => by simp [hv, useMetadata],
    fun hv => by simp [hv, useMetadata],
    fun v hv => by simp [hv, useMetadata],
    fun hv => by simp [hv, useMetadata],
    fun v hv => by simp [hv, useMetadata],
    fun hv => by simp [hv, useMetadata],
    fun v hv => by simp [hv, useMetadata],
    fun hv => by simp [hv, useMetadata],
    fun v hv => by simp [hv, useMetadata],
    fun hv => by simp [hv, useMetadata]⟩

/-- Override metadata populating only the `Addr` slot. -/
def rmC3w : RequestMetadata := { Addr := some ("9.9.9.9".data) }

/-- The header built from `reqC3` under the `Addr`-only override. -/
def headerC3w : Header :=
  buildHeaderFields reqC3 rmC3w ("9.9.9.9".data) ("http".data) 80

/-- C3 (witness): the amended theorem applied at a concrete request and an
`Addr` override, which lands verbatim in the built header. -/
theorem C3_amended_overrides_witness : headerC3w.Addr = "9.9.9.9".data :=
  (C3_amended_overrides reqC3 rmC3w headerC3w (by decide)).1 ("9.9.9.9".data) rfl
